import Mathlib

/-!
Shallow embedding of `src/DynamicNavbar.tsx` from the
`react-native-dynamic-navbar` repository, together with theorems settling
the behavioral claims about the component.

The component is purely presentational: given a list of navigation items
and a configuration, it computes a renderable tree.  We embed the render
pass as a pure function from props to a description of the rendered
output (background layers plus a list of per-item rendered descriptions),
and the per-item press handlers as pure transitions on an animation-target
state.  Host collaborators (the React Native `Pressable`, the animation
scheduler) are modelled only through the values the component hands them:
the `onPress` prop, the `disabled` prop, and the animation target values.
-/

namespace DynamicNavbar

/-! ### Default colors (`DEFAULT_COLORS` in the source) -/

def gold : String := "#FF9500"

def goldText : String := "#FFB340"

def midnightBlue : String := "#1C1C1E"

def textSecondary : String := "#B8B8C8"

/-! ### JavaScript truthiness helpers

The source uses JavaScript `a || b` on optional numbers and strings
(`icon.width || icon.height || 24`, `icon.color || ...`), where `0`,
`""` and `undefined` are all falsy, and `a && b` guards on truthiness
(`showLabels && item.label`, `if (icon.tintColor)`). -/

/-- JavaScript `a || b` where `a` is an optional number: `undefined` and `0`
are falsy and fall through to `b`. -/
def jsOrNat : Option Nat → Nat → Nat
  | some n, b => if n = 0 then b else n
  | none, b => b

/-- JavaScript `a || b` where `a` is an optional string: `undefined` and `""`
are falsy and fall through to `b`. -/
def jsOrStr : Option String → String → String
  | some s, b => if s = "" then b else s
  | none, b => b

/-- JavaScript truthiness of an optional string (`undefined` and `""` are
falsy). -/
def jsTruthyStr : Option String → Bool
  | some s => s != ""
  | none => false

/-! ### Icon data model (`VectorIcon`, `ImageIcon`, `SvgIcon`) -/

/-- Structure `VectorIcon`: icon from a vector-icon font family.  The family is the
string enum of the source (`Ionicons`, `MaterialIcons`, ...). -/
structure VectorIcon where
  family : String
  name : String
  size : Option Nat
deriving DecidableEq, Repr

/-- Structure `ImageIcon`: bitmap icon.  The image source descriptor is opaque to the
component; we model it as a string. -/
structure ImageIcon where
  source : String
  width : Option Nat
  height : Option Nat
  tintColor : Option String
deriving DecidableEq, Repr

/-- Structure `SvgIcon`: vector-graphic icon.  The renderable component is opaque to
the component; we model it by an identifier. -/
structure SvgIcon where
  component : String
  width : Option Nat
  height : Option Nat
  color : Option String
deriving DecidableEq, Repr

/-- Union `NavItemIcon = VectorIcon | ImageIcon | SvgIcon`. -/
inductive NavItemIcon where
  | vector (v : VectorIcon)
  | image (i : ImageIcon)
  | svg (s : SvgIcon)
deriving DecidableEq, Repr

/-- Theme variants (`NavbarTheme`). -/
inductive NavbarTheme where
  | defaultTheme
  | glass
deriving DecidableEq, Repr

instance : BEq NavbarTheme := ⟨fun a b => decide (a = b)⟩

/-- Navbar placement (`position` prop). -/
inductive Position where
  | top
  | bottom
deriving DecidableEq, Repr

/-- Layout direction (`direction` prop). -/
inductive Direction where
  | ltr
  | rtl
deriving DecidableEq, Repr

/-- Structure `NavItem`: one navigation entry.  The `onPress` callback is opaque to
the component; we model it by a numeric identifier. -/
structure NavItem where
  id : String
  label : Option String
  icon : NavItemIcon
  onPress : Nat
  isSpecial : Option Bool
  visible : Option Bool
  disabled : Option Bool
deriving DecidableEq, Repr

/-! ### Icon rendering (`getIconComponent`, `renderIcon`) -/

/-- Function `getIconComponent`: family-string dispatch with `Ionicons` as the
default for the `Ionicons` case and any unrecognized family. -/
def getIconComponent (family : String) : String :=
  if family = "MaterialIcons" then "MaterialIcons"
  else if family = "FontAwesome" then "FontAwesome"
  else if family = "Feather" then "Feather"
  else if family = "MaterialCommunityIcons" then "MaterialCommunityIcons"
  else "Ionicons"

/-- The renderable an icon dispatch produces: the element kind plus the
final layout and color attributes the source computes. -/
inductive RenderedIcon where
  | svgRendered (width height : Nat) (color fill : String)
  | imageRendered (width height : Nat) (tintColor : Option String)
  | vectorRendered (component name : String) (size : Nat) (color : String)
deriving DecidableEq, Repr

/-- Function `renderIcon(icon, isActive, isSpecial)`: dispatch on the icon variant.

SVG branch: `iconSize = icon.width || icon.height || 24`,
`iconColor = icon.color || (isActive ? goldText : textSecondary)`,
`finalColor = isSpecial ? midnightBlue : iconColor`,
`finalSize = isSpecial ? iconSize + 4 : iconSize`.

Image branch: `imageSize = icon.width || icon.height || 24`, style width
`icon.width || imageSize`, height `icon.height || imageSize`, and the
tint color applied only when truthy.

Vector branch: `iconSize = icon.size || 24`,
`iconColor = isActive ? goldText : textSecondary`, size
`isSpecial ? iconSize + 4 : iconSize`, color
`isSpecial ? midnightBlue : iconColor`. -/
def renderIcon (icon : NavItemIcon) (isActive isSpecial : Bool) : RenderedIcon :=
  match icon with
  | .svg s =>
      let iconSize := jsOrNat s.width (jsOrNat s.height 24)
      let iconColor := jsOrStr s.color (if isActive then goldText else textSecondary)
      let finalColor := if isSpecial then midnightBlue else iconColor
      let finalSize := if isSpecial then iconSize + 4 else iconSize
      .svgRendered finalSize finalSize finalColor finalColor
  | .image i =>
      let imageSize := jsOrNat i.width (jsOrNat i.height 24)
      let w := jsOrNat i.width imageSize
      let h := jsOrNat i.height imageSize
      let tint := if jsTruthyStr i.tintColor then i.tintColor else none
      .imageRendered w h tint
  | .vector v =>
      let iconSize := jsOrNat v.size 24
      let iconColor := if isActive then goldText else textSecondary
      .vectorRendered (getIconComponent v.family) v.name
        (if isSpecial then iconSize + 4 else iconSize)
        (if isSpecial then midnightBlue else iconColor)

/-! ### Styles used by the claims (`styles` in the source) -/

/-- Opacity of `styles.tabDisabled` (0.4). -/
def styles_tabDisabled_opacity : ℚ := 4/10

/-! ### Per-item animation state (`glowAnim`, `scaleAnim` targets)

`handlePressIn` / `handlePressOut` start animations toward target values
on the two press-related animated scalars.  We model the state by the
current target of each scalar; starting an animation replaces the
target. -/

/-- Targets of the press-related animated scalars of one item. -/
structure AnimState where
  scaleTarget : ℚ
  glowTarget : ℚ
deriving DecidableEq, Repr

/-- Initial state: `scaleAnim = 1`, `glowAnim = 0`. -/
def initialAnimState : AnimState := { scaleTarget := 1, glowTarget := 0 }

/-- The Pressed targets: `scaleAnim` springs to `0.92`, `glowAnim` times to
`1`. -/
def pressedState : AnimState := { scaleTarget := 92/100, glowTarget := 1 }

/-- Handler `handlePressIn`: guarded by `!enableGlow || item.disabled`; otherwise
start the parallel spring to scale `0.92` and the 150ms timing of the glow
to `1`. -/
def handlePressIn (enableGlow : Bool) (item : NavItem) (s : AnimState) : AnimState :=
  if !enableGlow || item.disabled.getD false then s
  else pressedState

/-- Handler `handlePressOut`: guarded by `!enableGlow || item.disabled`; otherwise
spring the scale back to `1` and, after a 50ms hold, fade the glow to `0`
over 300ms. -/
def handlePressOut (enableGlow : Bool) (item : NavItem) (s : AnimState) : AnimState :=
  if !enableGlow || item.disabled.getD false then s
  else { scaleTarget := 1, glowTarget := 0 }

/-! ### The rendered output of one `AnimatedNavItem` -/

/-- Description of the element tree one `AnimatedNavItem` renders: the
props handed to the host `Pressable`, which conditional style entries and
child elements are present, and the final attribute values the source
computes for them. -/
structure RenderedNavItem where
  /-- Mirrors `key` set to `item.id`. -/
  key : String
  /-- Mirrors `onPress`: `isDisabled ? undefined : item.onPress`. -/
  onPressProp : Option Nat
  /-- Mirrors the `disabled` prop (`isDisabled`) handed to the `Pressable`. -/
  disabledProp : Bool
  /-- Mirrors `item.isSpecial && styles.tabSpecial`. -/
  tabSpecialStyle : Bool
  /-- Mirrors `isDisabled && styles.tabDisabled`. -/
  tabDisabledStyle : Bool
  /-- The opacity override contributed by the style list: `some 0.4` when
  `styles.tabDisabled` is applied, otherwise none. -/
  tabOpacity : Option ℚ
  /-- The glow effect layer is rendered: `enableGlow && !item.isSpecial`. -/
  glowLayer : Bool
  /-- Background color of the glow layer. -/
  glowLayerColor : String
  /-- The rendered icon (`renderIcon(item.icon, isActive, item.isSpecial || false)`). -/
  icon : RenderedIcon
  /-- The label element is rendered: `showLabels && item.label`. -/
  labelShown : Bool
  /-- Mirrors `isActive && styles.labelActive`. -/
  labelActiveStyle : Bool
  /-- Mirrors `item.isSpecial && styles.labelSpecial`. -/
  labelSpecialStyle : Bool
  /-- The active indicator element is rendered:
  `showActiveIndicator && !item.isSpecial`. -/
  activeIndicator : Bool
  /-- Mirrors `theme === glass && styles.activeIndicatorGlass`. -/
  indicatorGlassStyle : Bool
  /-- Background color of the active indicator. -/
  indicatorColor : String
  /-- The `isActive` prop this item was rendered with. -/
  isActive : Bool
  /-- Target of `activeAnim` (the `useEffect` springs it to
  `isActive ? 1 : 0`); the indicator opacity and scale interpolate this
  scalar identically (`[0,1] → [0,1]`). -/
  activeAnimTarget : ℚ
deriving DecidableEq, Repr

/-- Component `AnimatedNavItem`: the per-item renderer. -/
def animatedNavItem (item : NavItem) (isActive showLabels enableGlow : Bool)
    (glowColor activeColor : String) (theme : NavbarTheme)
    (showActiveIndicator : Bool) : RenderedNavItem :=
  let isSpecial := item.isSpecial.getD false
  let isDisabled := item.disabled == some true
  { key := item.id
    onPressProp := if isDisabled then none else some item.onPress
    disabledProp := isDisabled
    tabSpecialStyle := isSpecial
    tabDisabledStyle := isDisabled
    tabOpacity := if isDisabled then some styles_tabDisabled_opacity else none
    glowLayer := enableGlow && !isSpecial
    glowLayerColor := glowColor
    icon := renderIcon item.icon isActive isSpecial
    labelShown := showLabels && jsTruthyStr item.label
    labelActiveStyle := isActive
    labelSpecialStyle := isSpecial
    activeIndicator := showActiveIndicator && !isSpecial
    indicatorGlassStyle := theme == NavbarTheme.glass
    indicatorColor := activeColor
    isActive := isActive
    activeAnimTarget := if isActive then 1 else 0 }

/-- Host `Pressable` press-delivery semantics: a completed tap
(press-start followed by press-end on the element) invokes the `onPress`
prop of the element unless its `disabled` prop is set. -/
def completedTap (r : RenderedNavItem) : Option Nat :=
  if r.disabledProp then none else r.onPressProp

/-! ### Navbar props and configuration resolution (`DynamicNavbar`) -/

/-- Props record `DynamicNavbarProps`.  Here `hasBlurComponent` records whether the optional
`BlurComponent` collaborator was supplied (the component itself is opaque
to the navbar). -/
structure DynamicNavbarProps where
  items : List NavItem
  position : Option Position := none
  height : Option Nat := none
  activeItemId : Option String := none
  showLabels : Option Bool := none
  backgroundColor : Option String := none
  borderColor : Option String := none
  direction : Option Direction := none
  theme : Option NavbarTheme := none
  hasBlurComponent : Bool := false
  blurIntensity : Option Nat := none
  blurType : Option String := none
  enableGlow : Option Bool := none
  glowColor : Option String := none
  activeColor : Option String := none
  showActiveIndicator : Option Bool := none
deriving DecidableEq, Repr

/-- Destructuring default `position = bottom`. -/
def positionResolved (p : DynamicNavbarProps) : Position := p.position.getD .bottom

/-- Destructuring default `height = 70`. -/
def heightResolved (p : DynamicNavbarProps) : Nat := p.height.getD 70

/-- Destructuring default `showLabels = true`. -/
def showLabelsResolved (p : DynamicNavbarProps) : Bool := p.showLabels.getD true

/-- Destructuring default `direction = ltr`. -/
def directionResolved (p : DynamicNavbarProps) : Direction := p.direction.getD .ltr

/-- Destructuring default `theme = default`. -/
def themeResolved (p : DynamicNavbarProps) : NavbarTheme := p.theme.getD .defaultTheme

/-- Destructuring default `blurIntensity = 20`. -/
def blurIntensityResolved (p : DynamicNavbarProps) : Nat := p.blurIntensity.getD 20

/-- Destructuring default `blurType = light`. -/
def blurTypeResolved (p : DynamicNavbarProps) : String := p.blurType.getD "light"

/-- Destructuring default `showActiveIndicator = true`. -/
def showActiveIndicatorResolved (p : DynamicNavbarProps) : Bool :=
  p.showActiveIndicator.getD true

/-- Computed `displayItems`: reverse the items when `direction === rtl`. -/
def displayItems (p : DynamicNavbarProps) : List NavItem :=
  if directionResolved p = .rtl then p.items.reverse else p.items

/-- Resolved `isGlowEnabled = enableGlow ?? (theme === glass)`. -/
def isGlowEnabled (p : DynamicNavbarProps) : Bool :=
  p.enableGlow.getD (themeResolved p == NavbarTheme.glass)

/-- Resolved `effectiveGlowColor`: `glowColor` when supplied, else the
glass default `rgba(255, 255, 255, 0.5)` or the default-theme default
`rgba(255, 149, 0, 0.4)`. -/
def effectiveGlowColor (p : DynamicNavbarProps) : String :=
  p.glowColor.getD (if themeResolved p = .glass
    then "rgba(255, 255, 255, 0.5)" else "rgba(255, 149, 0, 0.4)")

/-- Resolved `effectiveActiveColor`: `activeColor` when supplied, else the
glass default `rgba(255, 255, 255, 0.2)` or `DEFAULT_COLORS.gold`. -/
def effectiveActiveColor (p : DynamicNavbarProps) : String :=
  p.activeColor.getD (if themeResolved p = .glass
    then "rgba(255, 255, 255, 0.2)" else gold)

/-! ### Background composition (`renderBackground`) -/

/-- One layer of the background stack, tagged by the source element that
produces it. -/
inductive BackgroundLayer where
  /-- The supplied `BlurComponent` with its blur type and amount. -/
  | blurBackground (blurType : String) (blurAmount : Nat)
  /-- Style `styles.glassBlurOverlay`: the darkening overlay on top of a real
  blur (`rgba(20, 20, 30, 0.3)`). -/
  | glassBlurOverlay
  /-- Overlay `themeStyles.overlay`: the base low-opacity overlay of the theme. -/
  | themeOverlay (theme : NavbarTheme)
  /-- Style `styles.glassFrostLayer1` (`rgba(255, 255, 255, 0.04)`). -/
  | glassFrostLayer1
  /-- Style `styles.glassFrostLayer2` (platform-varying `rgba(180, 180, 200, ..)`). -/
  | glassFrostLayer2
  /-- Style `styles.glassFrostLayer3` (`rgba(255, 255, 255, 0.02)`). -/
  | glassFrostLayer3
  /-- Border view `themeStyles.border`: the bright specular edge view. -/
  | glassBorder
deriving DecidableEq, Repr

/-- Function `renderBackground`: with a `BlurComponent` and glass theme, the real
blur plus one darkening overlay plus the border; otherwise the base theme
overlay, and for the glass theme three additional frost layers and the
border. -/
def renderBackground (p : DynamicNavbarProps) : List BackgroundLayer :=
  if p.hasBlurComponent && (themeResolved p == NavbarTheme.glass) then
    [.blurBackground (blurTypeResolved p) (blurIntensityResolved p),
     .glassBlurOverlay, .glassBorder]
  else
    .themeOverlay (themeResolved p) ::
      (if themeResolved p = .glass then
        [.glassFrostLayer1, .glassFrostLayer2, .glassFrostLayer3, .glassBorder]
      else [])

/-- Layers belonging to the simulated (CSS-only) frost overlay stack:
low-opacity tint overlays, as opposed to the real blur, the blur-path
darkening overlay, or the border edge. -/
def isSimulatedOverlayLayer : BackgroundLayer → Bool
  | .themeOverlay _ => true
  | .glassFrostLayer1 => true
  | .glassFrostLayer2 => true
  | .glassFrostLayer3 => true
  | _ => false

/-! ### The navbar render pass (`DynamicNavbar`) -/

/-- The body of `displayItems.map(...)`: compute `isActive` and
`isVisible`, return `null` for hidden items, otherwise the rendered
`AnimatedNavItem`. -/
def navChild (p : DynamicNavbarProps) (item : NavItem) : Option RenderedNavItem :=
  let isActive := p.activeItemId == some item.id
  let isVisible := item.visible != some false
  if !isVisible then none
  else some (animatedNavItem item isActive (showLabelsResolved p) (isGlowEnabled p)
    (effectiveGlowColor p) (effectiveActiveColor p) (themeResolved p)
    (showActiveIndicatorResolved p))

/-- The children array produced by `displayItems.map(...)`: one entry per
display item, `none` standing for the `null` React renders as nothing. -/
def navbarChildren (p : DynamicNavbarProps) : List (Option RenderedNavItem) :=
  (displayItems p).map (navChild p)

/-- The item elements actually present in the rendered output (React drops
`null` children; a `null` child contributes no element and no layout
space). -/
def renderedNavItems (p : DynamicNavbarProps) : List RenderedNavItem :=
  (navbarChildren p).reduceOption


/-! ### Helper lemmas -/

/-- Helper: `reduceOption` of a mapped list is `filterMap`. -/
theorem reduceOption_map_eq_filterMap {α β : Type} (l : List α) (f : α → Option β) :
    (l.map f).reduceOption = l.filterMap f := by
  induction l with
  | nil => rfl
  | cons a t ih =>
      cases h : f a <;>
        simp only [List.map_cons, List.filterMap_cons, h,
          List.reduceOption_cons_of_none, List.reduceOption_cons_of_some, ih]

/-- Helper: the rendered item elements are the `filterMap` of `navChild`
over the display items. -/
theorem renderedNavItems_eq_filterMap (p : DynamicNavbarProps) :
    renderedNavItems p = (displayItems p).filterMap (navChild p) := by
  unfold renderedNavItems navbarChildren
  exact reduceOption_map_eq_filterMap (displayItems p) (navChild p)

/-- Helper: `navChild` written as a top-level conditional. -/
theorem navChild_eq (p : DynamicNavbarProps) (item : NavItem) :
    navChild p item =
      if item.visible = some false then none
      else some (animatedNavItem item (p.activeItemId == some item.id)
        (showLabelsResolved p) (isGlowEnabled p) (effectiveGlowColor p)
        (effectiveActiveColor p) (themeResolved p)
        (showActiveIndicatorResolved p)) := by
  unfold navChild
  by_cases h : item.visible = some false <;> simp [h]

/-- Helper: membership in the rendered items comes from a visible display
item, and determines the fields derived from that item. -/
theorem mem_renderedNavItems {p : DynamicNavbarProps} {r : RenderedNavItem}
    (h : r ∈ renderedNavItems p) :
    ∃ it ∈ displayItems p, it.visible ≠ some false ∧
      r = animatedNavItem it (p.activeItemId == some it.id)
        (showLabelsResolved p) (isGlowEnabled p) (effectiveGlowColor p)
        (effectiveActiveColor p) (themeResolved p)
        (showActiveIndicatorResolved p) := by
  rw [renderedNavItems_eq_filterMap] at h
  obtain ⟨it, hit, hsome⟩ := List.mem_filterMap.mp h
  rw [navChild_eq] at hsome
  by_cases hv : it.visible = some false
  · simp [hv] at hsome
  · refine ⟨it, hit, hv, ?_⟩
    simp [hv] at hsome
    exact hsome.symm

/-- Helper: `displayItems` has the same members as the item list. -/
theorem mem_displayItems {p : DynamicNavbarProps} {it : NavItem} :
    it ∈ displayItems p ↔ it ∈ p.items := by
  unfold displayItems
  by_cases h : directionResolved p = .rtl <;> simp [h]

/-! ### Concrete sample inputs used by witnesses -/

/-- Sample vector icon. -/
def sampleVectorIcon : NavItemIcon :=
  .vector { family := "Ionicons", name := "home-outline", size := none }

/-- Sample ordinary item. -/
def homeItem : NavItem :=
  { id := "home", label := some "Home", icon := sampleVectorIcon,
    onPress := 1, isSpecial := none, visible := none, disabled := none }

/-- Sample hidden item. -/
def searchItem : NavItem :=
  { id := "search", label := some "Search",
    icon := .vector { family := "Feather", name := "search", size := some 22 },
    onPress := 2, isSpecial := none, visible := some false, disabled := none }

/-- Sample special item. -/
def createItem : NavItem :=
  { id := "create", label := some "Create",
    icon := .vector { family := "Ionicons", name := "add", size := none },
    onPress := 3, isSpecial := some true, visible := some true, disabled := none }

/-- Sample disabled item. -/
def settingsItem : NavItem :=
  { id := "settings", label := some "Settings", icon := sampleVectorIcon,
    onPress := 4, isSpecial := none, visible := none, disabled := some true }

/-- Sample props: four items, `home` active, everything else default. -/
def sampleProps : DynamicNavbarProps :=
  { items := [homeItem, searchItem, createItem, settingsItem],
    activeItemId := some "home" }

/-! ### Claim theorems -/

/-- C1: for every navigation item with `disabled = true`, the rendered item
carries the fixed reduced-opacity disabled style (`styles.tabDisabled`,
opacity 0.4), the `Pressable` receives no `onPress` callback at all and is
marked disabled, so even a completed press-start/press-end tap gesture
invokes nothing. -/
theorem c1_disabled_item_reduced_opacity_and_never_pressed
    (item : NavItem) (isActive showLabels enableGlow : Bool)
    (glowColor activeColor : String) (theme : NavbarTheme)
    (showActiveIndicator : Bool) (h : item.disabled = some true) :
    (animatedNavItem item isActive showLabels enableGlow glowColor activeColor
        theme showActiveIndicator).tabDisabledStyle = true ∧
    (animatedNavItem item isActive showLabels enableGlow glowColor activeColor
        theme showActiveIndicator).tabOpacity = some (4/10 : ℚ) ∧
    (animatedNavItem item isActive showLabels enableGlow glowColor activeColor
        theme showActiveIndicator).onPressProp = none ∧
    completedTap (animatedNavItem item isActive showLabels enableGlow glowColor
        activeColor theme showActiveIndicator) = none := by
  simp [animatedNavItem, completedTap, h, styles_tabDisabled_opacity]

/-- Witness for C1 at the concrete disabled `settings` item. -/
theorem c1_disabled_item_witness :
    (animatedNavItem settingsItem false true false "glow" "active"
        NavbarTheme.defaultTheme true).tabDisabledStyle = true ∧
    (animatedNavItem settingsItem false true false "glow" "active"
        NavbarTheme.defaultTheme true).tabOpacity = some (4/10 : ℚ) ∧
    (animatedNavItem settingsItem false true false "glow" "active"
        NavbarTheme.defaultTheme true).onPressProp = none ∧
    completedTap (animatedNavItem settingsItem false true false "glow" "active"
        NavbarTheme.defaultTheme true) = none :=
  c1_disabled_item_reduced_opacity_and_never_pressed settingsItem false true
    false "glow" "active" NavbarTheme.defaultTheme true rfl

/-- C2: every item with `visible = false` contributes no element to the
rendered output (its map entry is the dropped `null`, consuming no layout
space), while every other display item renders as usual, in order. -/
theorem c2_hidden_items_skipped (p : DynamicNavbarProps) :
    renderedNavItems p =
      ((displayItems p).filter (fun it => it.visible != some false)).map
        (fun it => animatedNavItem it (p.activeItemId == some it.id)
          (showLabelsResolved p) (isGlowEnabled p) (effectiveGlowColor p)
          (effectiveActiveColor p) (themeResolved p)
          (showActiveIndicatorResolved p)) ∧
    ∀ it ∈ displayItems p, it.visible = some false → navChild p it = none := by
  constructor
  · rw [renderedNavItems_eq_filterMap]
    induction displayItems p with
    | nil => rfl
    | cons a t ih =>
        by_cases h : a.visible = some false <;>
          simp [List.filterMap_cons, List.filter_cons, navChild_eq, h, ih]
  · intro it _ hv
    rw [navChild_eq]
    simp [hv]

/-- C3: with unique item ids, a rendered item is marked active exactly when
its id equals `activeItemId`; an undefined `activeItemId`, or one matching
no item, marks no item active.  The active mark is the `isActive` value the
navbar hands each `AnimatedNavItem`, which drives the `activeAnim` target,
the active label style and the indicator opacity. -/
theorem c3_active_marking (p : DynamicNavbarProps)
    (hids : (p.items.map NavItem.id).Nodup) :
    (∀ r ∈ renderedNavItems p, (r.isActive = true ↔ p.activeItemId = some r.key)) ∧
    (p.activeItemId = none → ∀ r ∈ renderedNavItems p, r.isActive = false) ∧
    ((∀ it ∈ p.items, p.activeItemId ≠ some it.id) →
      ∀ r ∈ renderedNavItems p, r.isActive = false) := by
  have hchar : ∀ r ∈ renderedNavItems p, ∃ it ∈ p.items,
      r.isActive = (p.activeItemId == some it.id) ∧ r.key = it.id := by
    intro r hr
    obtain ⟨it, hit, _, heq⟩ := mem_renderedNavItems hr
    exact ⟨it, mem_displayItems.mp hit, by rw [heq]; rfl, by rw [heq]; rfl⟩
  refine ⟨?_, ?_, ?_⟩
  · intro r hr
    obtain ⟨it, _, hact, hkey⟩ := hchar r hr
    rw [hact, hkey, beq_iff_eq]
  · intro hnone r hr
    obtain ⟨it, _, hact, _⟩ := hchar r hr
    rw [hact, hnone]
    rfl
  · intro hmiss r hr
    obtain ⟨it, hit, hact, _⟩ := hchar r hr
    rw [hact, beq_eq_false_iff_ne]
    exact hmiss it hit

/-- Witness for C3 on the concrete sample props (unique ids, `home`
active). -/
theorem c3_active_marking_witness :
    (∀ r ∈ renderedNavItems sampleProps,
      (r.isActive = true ↔ sampleProps.activeItemId = some r.key)) ∧
    (sampleProps.activeItemId = none →
      ∀ r ∈ renderedNavItems sampleProps, r.isActive = false) ∧
    ((∀ it ∈ sampleProps.items, sampleProps.activeItemId ≠ some it.id) →
      ∀ r ∈ renderedNavItems sampleProps, r.isActive = false) :=
  c3_active_marking sampleProps (by decide)

/-- C4: rendering with `direction = rtl` yields exactly the reverse
display order of `direction = ltr` on the same props (a single list
reversal), and the per-item rendered output — icon, styles, active and
special state — is unchanged by the direction. -/
theorem c4_rtl_reverses_display_order (p : DynamicNavbarProps) :
    renderedNavItems { p with direction := some Direction.rtl } =
      (renderedNavItems { p with direction := some Direction.ltr }).reverse ∧
    ∀ it : NavItem,
      navChild { p with direction := some Direction.rtl } it =
        navChild { p with direction := some Direction.ltr } it := by
  have hchild : navChild { p with direction := some Direction.rtl } =
      navChild { p with direction := some Direction.ltr } := rfl
  refine ⟨?_, fun it => by rw [hchild]⟩
  rw [renderedNavItems_eq_filterMap, renderedNavItems_eq_filterMap]
  have h1 : displayItems { p with direction := some Direction.rtl } =
      p.items.reverse := by
    simp [displayItems, directionResolved]
  have h2 : displayItems { p with direction := some Direction.ltr } =
      p.items := by
    simp [displayItems, directionResolved]
  rw [h1, h2, hchild, List.filterMap_reverse]

/-- C5: an item with `isSpecial = true` never renders the active
indicator, regardless of active state; and (with the indicator enabled,
its default) an active non-special item renders the indicator with the
`activeAnim` target at 1, so its interpolated opacity and scale are
full. -/
theorem c5_active_indicator_policy (item : NavItem)
    (isActive showLabels enableGlow : Bool) (glowColor activeColor : String)
    (theme : NavbarTheme) (sai : Bool) :
    (item.isSpecial = some true →
      (animatedNavItem item isActive showLabels enableGlow glowColor
          activeColor theme sai).activeIndicator = false) ∧
    (sai = true → item.isSpecial.getD false = false → isActive = true →
      (animatedNavItem item isActive showLabels enableGlow glowColor
          activeColor theme sai).activeIndicator = true ∧
      (animatedNavItem item isActive showLabels enableGlow glowColor
          activeColor theme sai).activeAnimTarget = 1) := by
  constructor
  · intro h
    simp [animatedNavItem, h]
  · intro hs hns ha
    subst hs ha
    constructor
    · simp [animatedNavItem, hns]
    · simp [animatedNavItem]

/-- Witness for C5: the special `create` item never shows the indicator,
and the active non-special `home` item does. -/
theorem c5_active_indicator_witness :
    ((animatedNavItem createItem true true false "glow" "active"
        NavbarTheme.defaultTheme true).activeIndicator = false) ∧
    ((animatedNavItem homeItem true true false "glow" "active"
        NavbarTheme.defaultTheme true).activeIndicator = true ∧
      (animatedNavItem homeItem true true false "glow" "active"
        NavbarTheme.defaultTheme true).activeAnimTarget = 1) :=
  ⟨(c5_active_indicator_policy createItem true true false "glow" "active"
      NavbarTheme.defaultTheme true).1 rfl,
    (c5_active_indicator_policy homeItem true true false "glow" "active"
      NavbarTheme.defaultTheme true).2 rfl rfl rfl⟩

/-- SVG color rule as claim C6 states it: an explicitly supplied icon color
takes precedence over the active/special-derived color (the derived color
being the vector-icon rule: special color, else active accent, else
secondary text). -/
def svgColorPerClaim (s : SvgIcon) (isActive isSpecial : Bool) : String :=
  jsOrStr s.color
    (if isSpecial then midnightBlue
     else if isActive then goldText else textSecondary)

/-- Sample SVG icon with an explicit color, used by the C6 counterexample. -/
def redStarIcon : SvgIcon :=
  { component := "Star", width := some 24, height := none,
    color := some "#FF0000" }

/-- Counterexample to C6 as stated: for a special SVG icon with an explicit
color, the code renders the special color `midnightBlue`, not the explicit
color that the precedence rule of the claim would give. -/
theorem c6_svg_color_counterexample :
    renderIcon (.svg redStarIcon) false true =
      .svgRendered 28 28 midnightBlue midnightBlue ∧
    svgColorPerClaim redStarIcon false true = "#FF0000" ∧
    midnightBlue ≠ "#FF0000" := by
  refine ⟨rfl, rfl, by decide⟩

/-- C6 amended: the SVG color follows the vector-icon active/special rule,
with an explicitly supplied color taking precedence over the
active-derived color only; the special color still takes precedence over
an explicit color (and the special size bump also applies). -/
theorem c6_amended_svg_color (s : SvgIcon) (isActive isSpecial : Bool) :
    renderIcon (.svg s) isActive isSpecial =
      RenderedIcon.svgRendered
        (if isSpecial then jsOrNat s.width (jsOrNat s.height 24) + 4
         else jsOrNat s.width (jsOrNat s.height 24))
        (if isSpecial then jsOrNat s.width (jsOrNat s.height 24) + 4
         else jsOrNat s.width (jsOrNat s.height 24))
        (if isSpecial then midnightBlue
         else jsOrStr s.color (if isActive then goldText else textSecondary))
        (if isSpecial then midnightBlue
         else jsOrStr s.color (if isActive then goldText else textSecondary)) := by
  simp [renderIcon]

/-- Counterexample to C7 as stated: a press-start on a non-disabled item is
ignored (no animation target changes, the state machine stays at the Idle
targets) whenever the resolved glow flag is off — which is the default for
the default theme — so press-start does not enter Pressed merely because
the item is not disabled. -/
theorem c7_pressIn_counterexample :
    homeItem.disabled = none ∧
    handlePressIn false homeItem initialAnimState = initialAnimState ∧
    handlePressIn false homeItem initialAnimState ≠ pressedState := by
  refine ⟨rfl, rfl, ?_⟩
  intro hc
  have h0 : initialAnimState.glowTarget = pressedState.glowTarget := by
    rw [← hc]
    rfl
  simp [initialAnimState, pressedState] at h0

/-- C7 amended: press-start enters the Pressed state (press-scale target
0.92, glow target 1) exactly when glow is enabled and the item is not
disabled; it is ignored — the animation targets are left unchanged — when
the item is disabled or glow is not enabled. -/
theorem c7_amended_pressIn_enters_pressed (item : NavItem)
    (enableGlow : Bool) (s : AnimState) :
    (enableGlow = true → item.disabled.getD false = false →
      handlePressIn enableGlow item s = pressedState) ∧
    (enableGlow = false ∨ item.disabled.getD false = true →
      handlePressIn enableGlow item s = s) ∧
    pressedState.scaleTarget = 92/100 ∧ pressedState.glowTarget = 1 := by
  refine ⟨?_, ?_, rfl, rfl⟩
  · intro hg hd
    simp [handlePressIn, hg, hd]
  · rintro (hg | hd)
    · simp [handlePressIn, hg]
    · simp [handlePressIn, hd]

/-- Witness for the amended C7 at a concrete enabled press and a concrete
ignored press. -/
theorem c7_amended_pressIn_witness :
    handlePressIn true homeItem initialAnimState = pressedState ∧
    handlePressIn false homeItem initialAnimState = initialAnimState :=
  ⟨(c7_amended_pressIn_enters_pressed homeItem true initialAnimState).1
      rfl rfl,
    (c7_amended_pressIn_enters_pressed homeItem false initialAnimState).2.1
      (Or.inl rfl)⟩

/-- C8: when `enableGlow` is not supplied, the resolved glow flag defaults
to false for the default theme and true for the glass theme; a supplied
value is used unchanged. -/
theorem c8_enableGlow_default_policy (p : DynamicNavbarProps) :
    (p.enableGlow = none → themeResolved p = .defaultTheme →
      isGlowEnabled p = false) ∧
    (p.enableGlow = none → themeResolved p = .glass →
      isGlowEnabled p = true) ∧
    (∀ b, p.enableGlow = some b → isGlowEnabled p = b) := by
  refine ⟨?_, ?_, ?_⟩
  · intro hn ht
    simp [isGlowEnabled, hn, ht]
  · intro hn ht
    simp [isGlowEnabled, hn, ht]
  · intro b hb
    simp [isGlowEnabled, hb]

/-- Concrete glass-theme props with nothing else supplied. -/
def glassProps : DynamicNavbarProps :=
  { items := []
    theme := some NavbarTheme.glass }

/-- Concrete glass-theme props with a blur component supplied. -/
def glassBlurProps : DynamicNavbarProps :=
  { items := []
    theme := some NavbarTheme.glass
    hasBlurComponent := true }

/-- Concrete glass-theme props with glow explicitly off. -/
def glassNoGlowProps : DynamicNavbarProps :=
  { items := []
    theme := some NavbarTheme.glass
    enableGlow := some false }

/-- Witness for C8 on concrete props: unsupplied glow under each theme, and
a supplied `false` under the glass theme. -/
theorem c8_enableGlow_default_witness :
    isGlowEnabled { items := [] } = false ∧
    isGlowEnabled glassProps = true ∧
    isGlowEnabled glassNoGlowProps = false :=
  ⟨(c8_enableGlow_default_policy { items := [] }).1 rfl rfl,
    (c8_enableGlow_default_policy glassProps).2.1 rfl rfl,
    (c8_enableGlow_default_policy glassNoGlowProps).2.2 false rfl⟩

/-- C9: under the glass theme, a missing blur component falls back to the
simulated frost overlay stack — four stacked low-opacity overlay layers,
within the stated 2..4 bound — rather than rendering nothing; a supplied
blur component replaces that stack with the real blur plus exactly one
darkening overlay (and the border edge). -/
theorem c9_glass_background_fallback (p : DynamicNavbarProps)
    (h : themeResolved p = .glass) :
    (p.hasBlurComponent = false →
      renderBackground p =
        [.themeOverlay .glass, .glassFrostLayer1, .glassFrostLayer2,
         .glassFrostLayer3, .glassBorder] ∧
      ((renderBackground p).filter isSimulatedOverlayLayer).length = 4 ∧
      2 ≤ ((renderBackground p).filter isSimulatedOverlayLayer).length ∧
      ((renderBackground p).filter isSimulatedOverlayLayer).length ≤ 4 ∧
      renderBackground p ≠ []) ∧
    (p.hasBlurComponent = true →
      renderBackground p =
        [.blurBackground (blurTypeResolved p) (blurIntensityResolved p),
         .glassBlurOverlay, .glassBorder] ∧
      ((renderBackground p).filter
        (fun l => l = BackgroundLayer.glassBlurOverlay)).length = 1) := by
  constructor
  · intro hb
    have hbg : renderBackground p =
        [.themeOverlay .glass, .glassFrostLayer1, .glassFrostLayer2,
         .glassFrostLayer3, .glassBorder] := by
      simp [renderBackground, h, hb]
    rw [hbg]
    refine ⟨rfl, rfl, by decide, by decide, by decide⟩
  · intro hb
    have hbg : renderBackground p =
        [.blurBackground (blurTypeResolved p) (blurIntensityResolved p),
         .glassBlurOverlay, .glassBorder] := by
      simp [renderBackground, h, hb]
    rw [hbg]
    exact ⟨rfl, by simp⟩

/-- Witness for C9 at concrete glass props without and with a blur
component. -/
theorem c9_glass_background_witness :
    (renderBackground glassProps =
        [.themeOverlay .glass, .glassFrostLayer1, .glassFrostLayer2,
         .glassFrostLayer3, .glassBorder] ∧
      ((renderBackground glassProps).filter isSimulatedOverlayLayer).length = 4 ∧
      2 ≤ ((renderBackground glassProps).filter isSimulatedOverlayLayer).length ∧
      ((renderBackground glassProps).filter isSimulatedOverlayLayer).length ≤ 4 ∧
      renderBackground glassProps ≠ []) ∧
    (renderBackground glassBlurProps =
        [.blurBackground "light" 20, .glassBlurOverlay, .glassBorder] ∧
      ((renderBackground glassBlurProps).filter
        (fun l => l = BackgroundLayer.glassBlurOverlay)).length = 1) :=
  ⟨(c9_glass_background_fallback glassProps rfl).1 rfl,
    (c9_glass_background_fallback glassBlurProps rfl).2 rfl⟩

/-- C10: an item with `isSpecial = true` never includes the glow effect
layer in its rendered output, whatever the glow flag of the navbar; the
press-glow visual applies only to non-special items. -/
theorem c10_special_item_has_no_glow_layer (item : NavItem)
    (isActive showLabels enableGlow : Bool) (glowColor activeColor : String)
    (theme : NavbarTheme) (sai : Bool) (h : item.isSpecial = some true) :
    (animatedNavItem item isActive showLabels enableGlow glowColor
        activeColor theme sai).glowLayer = false := by
  simp [animatedNavItem, h]

/-- Witness for C10 at the concrete special `create` item with glow
enabled. -/
theorem c10_special_item_witness :
    (animatedNavItem createItem false true true "glow" "active"
        NavbarTheme.glass true).glowLayer = false :=
  c10_special_item_has_no_glow_layer createItem false true true "glow"
    "active" NavbarTheme.glass true rfl

end DynamicNavbar
